import Mathlib

/-!
# Verification of the scoot-assist-ai FAQ matching and response-routing engine

Shallow embedding of `supabase/functions/chat-assistant` (the canonical
three-signal variant: stop-word filtered lexical similarity, synonym-aware
keyword match, semantic similarity with boosts, confidence threshold 0.3).

Modelling conventions:
* JavaScript numbers are modelled as `ℚ`; every constant in the scoring code
  (0.5, 0.6, 0.8, 0.3, …) is exactly representable, and no claim hinges on
  float rounding.
* `String.prototype.split(/\s+/)` is modelled by `jsSplitWhitespace`
  (separators are maximal whitespace runs, a leading/trailing separator
  yields an empty piece), `split(' ')` by `String.splitOn " "`.
* `a.includes(b)` (substring test) is modelled by `jsIncludes`.
* In `calculateSemanticSimilarity` the division `semanticMatches /
  totalQueryWords` is an IEEE division: `0 / 0 = NaN` and `x / 0 = +∞` for
  `x > 0`. The result is modelled as `Option ℚ` with `none` for NaN; the
  `+∞` branch is capped to 1 by the surrounding `Math.min(·, 1.0)`.
  `Math.max` propagates NaN, and `NaN > x` is false, both mirrored below.
* The external generative call (`fetch` to the Gemini endpoint) is modelled
  by an abstract outcome `GeminiOutcome`; the regular-expression engine used
  by `detectIntent` (`new RegExp(pattern, 'i').test(query)`) is modelled by
  an oracle parameter `regexTest : String → String → Bool`.
* The database is modelled by `QARow` lists; the `select` issued by `serve`
  projects a row to `QAItem`, whose `view_count` field is `Option ℕ` because
  the select list (`id, question, answer, keywords, category_id,
  qa_categories(name)`) does not request `view_count`: the JS object
  property read `item.view_count` yields `undefined`, modelled as `none`,
  and `item.view_count || 0` as `Option.getD · 0`.
-/

namespace ScootAssist

/-- JS `str.split(/\s+/)` on the character list: separators are maximal runs
of whitespace; a leading or trailing run contributes an empty piece, and an
empty input yields `[""]`.  The `inWs` flag records that the previous
character was part of a whitespace run already closed. -/
def jsSplitAux : List Char → List Char → Bool → List String
  | [], acc, _ => [String.mk acc.reverse]
  | c :: rest, acc, inWs =>
    if c.isWhitespace then
      if inWs then jsSplitAux rest [] true
      else String.mk acc.reverse :: jsSplitAux rest [] true
    else jsSplitAux rest (c :: acc) false

/-- JS `str.split(/\s+/)`. -/
def jsSplitWhitespace (s : String) : List String := jsSplitAux s.data [] false

/-- Does the pattern (first argument) start the text (second argument)? -/
def startsWithList : List Char → List Char → Bool
  | [], _ => true
  | _ :: _, [] => false
  | p :: ps, t :: ts => p == t && startsWithList ps ts

/-- Does the pattern (first argument) occur contiguously in the text? -/
def occursIn : List Char → List Char → Bool
  | ps, [] => ps.isEmpty
  | ps, t :: ts => startsWithList ps (t :: ts) || occursIn ps ts

/-- JS `a.includes(b)`: `b` occurs as a contiguous substring of `a`. -/
def jsIncludes (a b : String) : Bool := occursIn b.data a.data

/-- The stop-word list of `calculateSimilarity` (the source lists `'but'`
twice; the duplicate is kept). -/
def stopWords : List String :=
  ["what", "is", "the", "are", "your", "my", "do", "does", "can", "have",
   "how", "where", "when", "why", "i", "you", "a", "an", "and", "or", "but",
   "of", "to", "for", "with", "on", "at", "by", "from", "up", "about",
   "into", "through", "during", "before", "after", "above", "below",
   "between", "among", "within", "without", "along", "following", "across",
   "behind", "beyond", "plus", "except", "but", "than", "that", "this",
   "these", "those"]

/-- `str.toLowerCase().split(/\s+/).filter(word => word.length > 2 &&
!stopWords.includes(word))` — the token list used by `calculateSimilarity`. -/
def simTokens (s : String) : List String :=
  (jsSplitWhitespace s.toLower).filter
    (fun w => decide (2 < w.length) && !(stopWords.contains w))

/-- `words1.filter(word => words2.includes(word)).length` — the exact-match
count of `calculateSimilarity`. -/
def exactMatches (words1 words2 : List String) : ℕ :=
  (words1.filter (fun w => words2.contains w)).length

/-- One iteration of the partial-match inner loop: does some `word2` differ
from `word1` while one contains the other?  (The `break` in the source makes
each `word1` contribute at most once, i.e. an existential.) -/
def hasPartialMatch (word1 : String) (words2 : List String) : Bool :=
  words2.any (fun word2 =>
    word1 != word2 && (jsIncludes word1 word2 || jsIncludes word2 word1))

/-- Number of `word1 ∈ words1` contributing `0.5` to `partialMatches`. -/
def partialPairs (words1 words2 : List String) : ℕ :=
  (words1.filter (fun w => hasPartialMatch w words2)).length

/-- The arithmetic core of `calculateSimilarity`:
`(exactMatches + partialMatches) / Math.max(words1.length, words2.length)`,
zero if either token list is empty, where
`partialMatches = 0.5 * partialPairs`. -/
def simScore (words1 words2 : List String) : ℚ :=
  if words1.length = 0 ∨ words2.length = 0 then 0
  else ((exactMatches words1 words2 : ℚ) + (partialPairs words1 words2 : ℚ) / 2)
        / (max words1.length words2.length : ℚ)

/-- `calculateSimilarity` — the lexical-similarity signal. -/
def calculateSimilarity (str1 str2 : String) : ℚ :=
  simScore (simTokens str1) (simTokens str2)

/-- The static synonym table of `areSimilarWords` (the source lists
`'shipping'` twice under `'delivery'`; the duplicate is kept). -/
def synonyms : List (String × List String) :=
  [("speed", ["velocity", "pace", "fast", "quick", "mph", "rate"]),
   ("range", ["distance", "miles", "travel", "reach", "mileage"]),
   ("battery", ["charge", "power", "energy", "charging"]),
   ("waterproof", ["water", "rain", "wet", "weather", "resistant"]),
   ("warranty", ["guarantee", "coverage", "protection", "policy"]),
   ("legal", ["law", "regulations", "rules", "permitted", "street", "road"]),
   ("service", ["repair", "maintenance", "fix", "support"]),
   ("track", ["follow", "monitor", "status", "order"]),
   ("payment", ["pay", "cost", "price", "billing", "methods"]),
   ("return", ["refund", "exchange", "send back", "policy"]),
   ("models", ["types", "versions", "variants", "options", "scooters", "products"]),
   ("differences", ["compare", "comparison", "different", "features", "specs"]),
   ("features", ["specs", "specifications", "capabilities", "options"]),
   ("delivery", ["shipping", "shipping", "transport", "sent"]),
   ("accessories", ["parts", "add-ons", "extras", "components"])]

/-- `areSimilarWords`: two words are similar when one is a table key and the
other in its value list, or both appear in the same value list. -/
def areSimilarWords (word1 word2 : String) : Bool :=
  synonyms.any (fun kv =>
    (word1 == kv.1 && kv.2.contains word2) ||
    (word2 == kv.1 && kv.2.contains word1) ||
    (kv.2.contains word1 && kv.2.contains word2))

/-- The predicate of the `keywords.filter` in `calculateKeywordMatch`: some
query word contains the (lowercased) keyword, is contained in it, or is
linked to it through the synonym table. -/
def keywordHit (queryWords : List String) (keyword : String) : Bool :=
  queryWords.any (fun word =>
    jsIncludes word keyword.toLower ||
    jsIncludes keyword.toLower word ||
    areSimilarWords word keyword.toLower)

/-- `calculateKeywordMatch` — the keyword-match signal: fraction of the
entry's keywords hit by the query, zero for an empty keyword list.  The
query is split on whitespace with no length or stop-word filtering. -/
def calculateKeywordMatch (query : String) (keywords : List String) : ℚ :=
  if keywords.length = 0 then 0
  else ((keywords.filter (keywordHit (jsSplitWhitespace query.toLower))).length : ℚ)
        / (keywords.length : ℚ)

/-- `str.toLowerCase().split(/\s+/).filter(word => word.length > 2)` — the
token list of `calculateSemanticSimilarity` (no stop-word filtering). -/
def semTokens (s : String) : List String :=
  (jsSplitWhitespace s.toLower).filter (fun w => decide (2 < w.length))

/-- The inner loop of `calculateSemanticSimilarity` for one query word: the
first question word meeting any criterion decides the contribution (the
`break`), checked in order — exact match 1, synonym 0.8, containment 0.6
(only when both words are longer than 3). -/
def semContribution (queryWord : String) : List String → ℚ
  | [] => 0
  | questionWord :: rest =>
    if queryWord == questionWord then 1
    else if areSimilarWords queryWord questionWord then 0.8
    else if decide (3 < queryWord.length) && decide (3 < questionWord.length)
            && (jsIncludes queryWord questionWord || jsIncludes questionWord queryWord) then 0.6
    else semContribution queryWord rest

/-- The `semanticMatches` accumulated by the double loop. -/
def semLoopSum (queryWords questionWords : List String) : ℚ :=
  (queryWords.map (fun w => semContribution w questionWords)).sum

/-- The hand-tuned boosts added to `semanticMatches` when specific literal
substrings co-occur in the raw (already lowercased) query and question. -/
def semBoost (query question : String) : ℚ :=
  (if jsIncludes query "model" && jsIncludes question "model" then (0.5 : ℚ) else 0) +
  (if jsIncludes query "difference" && jsIncludes question "difference" then (0.5 : ℚ) else 0) +
  (if jsIncludes query "types" &&
      (jsIncludes question "model" || jsIncludes question "difference") then (0.3 : ℚ) else 0)

/-- `calculateSemanticSimilarity` — the semantic signal:
`Math.min(semanticMatches / totalQueryWords, 1.0)`.  When the query has no
token longer than 2 characters the denominator is `0`: the IEEE quotient is
NaN (modelled `none`) if the numerator is also `0`, and `+∞` capped to `1`
otherwise (unreachable in fact, since every boost substring is longer than
2 characters, but modelled faithfully). -/
def calculateSemanticSimilarity (query question : String) : Option ℚ :=
  if (semTokens query).length = 0 then
    (if semLoopSum (semTokens query) (semTokens question) + semBoost query question = 0
     then none else some 1)
  else
    some (min ((semLoopSum (semTokens query) (semTokens question) + semBoost query question)
                / ((semTokens query).length : ℚ)) 1)

/-- A fetched FAQ entry, shaped exactly as the `select` in `serve` returns
it (`id, question, answer, keywords, category_id`).  `view_count` is
`Option ℕ`: the select list does not request the column, so the property
read `item.view_count` yields `undefined` (`none`).  The `keywords || []`
guard at the call site collapses a missing array to `[]`, so keywords are
a plain list. -/
structure QAItem where
  id : String
  question : String
  answer : String
  keywords : List String
  category_id : String
  view_count : Option ℕ
deriving DecidableEq, Repr

/-- An intent pattern row (`pattern`, `intent`, `confidence_threshold`); the
threshold is carried but never consulted. -/
structure IntentPattern where
  pattern : String
  intent : String
  confidence_threshold : ℚ
deriving DecidableEq, Repr

/-- The object `{ item: { ...item, view_count: item.view_count || 0 },
confidence: finalScore }` built by `findBestMatch`: the spread copy is
modelled as the original item plus the overriding `view_count` field. -/
structure MatchResult where
  item : QAItem
  view_count : ℕ
  confidence : ℚ
deriving DecidableEq, Repr

/-- The weighted per-candidate score of `findBestMatch`:
`Math.max(questionScore * 0.6, keywordScore * 0.8, semanticScore * 1.0)`.
`none` is NaN: `Math.max` propagates a NaN semantic score. -/
def finalScore (query : String) (item : QAItem) : Option ℚ :=
  let questionScore := calculateSimilarity query.toLower item.question.toLower
  let keywordScore := calculateKeywordMatch query.toLower item.keywords
  match calculateSemanticSimilarity query.toLower item.question.toLower with
  | none => none
  | some semanticScore =>
      some (max (questionScore * 0.6) (max (keywordScore * 0.8) (semanticScore * 1.0)))

/-- The loop of `findBestMatch`, carrying `(bestMatch, highestScore)`.  An
item is selected exactly when `finalScore > highestScore`; a NaN score
fails the comparison and is skipped. -/
def findBestMatchAux (query : String) :
    List QAItem → Option MatchResult × ℚ → Option MatchResult × ℚ
  | [], st => st
  | item :: rest, (best, highest) =>
    match finalScore query item with
    | some fs =>
        if highest < fs then
          findBestMatchAux query rest (some ⟨item, item.view_count.getD 0, fs⟩, fs)
        else findBestMatchAux query rest (best, highest)
    | none => findBestMatchAux query rest (best, highest)

/-- `findBestMatch`: best-scoring entry with its confidence, or `null`. -/
def findBestMatch (query : String) (qaItems : List QAItem) : Option MatchResult :=
  (findBestMatchAux query qaItems (none, (0 : ℚ))).1

/-- `findRelatedItems`: up to 3 other entries in the same category. -/
def findRelatedItems (item : QAItem) (allItems : List QAItem) : List String :=
  ((allItems.filter (fun o => o.id != item.id && o.category_id == item.category_id)).take 3).map
    (fun o => o.id)

/-- `detectIntent`: the first pattern whose regex (case-insensitive) accepts
the query wins; `regexTest pattern query` is the oracle for
`new RegExp(pattern, 'i').test(query)`. -/
def detectIntent (regexTest : String → String → Bool) (query : String) :
    List IntentPattern → String
  | [] => "general_inquiry"
  | p :: rest =>
    if regexTest p.pattern query then p.intent else detectIntent regexTest query rest

/-- Outcome of `response.json()` on the generative call: the payload may
fail to parse, or parse with `data.candidates?.[0]?.content?.parts?.[0]?.text`
either absent (`none`) or some string. -/
inductive GeminiBody where
  | parseError : GeminiBody
  | parsed : Option String → GeminiBody
deriving DecidableEq, Repr

/-- Outcome of the `fetch` to the generative endpoint: the call may throw
(network error), or return a response with an HTTP status and a body. -/
inductive GeminiOutcome where
  | fetchError : GeminiOutcome
  | fetched : ℕ → GeminiBody → GeminiOutcome
deriving DecidableEq, Repr

/-- The fixed message of the `catch` branch of `callGeminiAPI`. -/
def technicalDifficultiesMsg : String :=
  "I apologize, but I am experiencing technical difficulties. Please try again later."

/-- The `||` default when no text can be extracted from the payload. -/
def unableToProcessMsg : String :=
  "I apologize, but I am unable to process your request at the moment."

/-- `callGeminiAPI`, abstracted over the network outcome.  A thrown `fetch`
or a throwing `response.json()` lands in the `catch` branch (apology,
confidence 0.1).  A response that parses is used regardless of its HTTP
status — the code never consults `response.ok` or `response.status` — with
the extracted text (`||`-defaulted when absent or empty) and confidence
0.8. -/
def callGeminiAPI (outcome : GeminiOutcome) : String × ℚ :=
  match outcome with
  | .fetchError => (technicalDifficultiesMsg, 0.1)
  | .fetched _ .parseError => (technicalDifficultiesMsg, 0.1)
  | .fetched _ (.parsed t) =>
      (match t with
       | none => unableToProcessMsg
       | some s => if s = "" then unableToProcessMsg else s, 0.8)

/-- `query.toLowerCase().split(' ')` — suggestion-generator tokenization
(single-space separator, empties kept, no filtering). -/
def sgWords (s : String) : List String := s.toLower.splitOn " "

/-- `queryWords.filter(word => itemWords.includes(word)).length` — the
`commonWords` count for one entry. -/
def sgCommonCount (queryWords : List String) (item : QAItem) : ℕ :=
  (queryWords.filter (fun w => (sgWords item.question).contains w)).length

/-- First loop of `generateSuggestedQuestions`: propose the question of each
entry sharing at least one token with the query, while fewer than 3. -/
def sgFirstPass (queryWords : List String) :
    List QAItem → List String → List String
  | [], suggestions => suggestions
  | item :: rest, suggestions =>
    if decide (0 < sgCommonCount queryWords item) && decide (suggestions.length < 3) then
      sgFirstPass queryWords rest (suggestions ++ [item.question])
    else sgFirstPass queryWords rest suggestions

/-- The static padding list of `generateSuggestedQuestions`. -/
def generalQuestions : List String :=
  ["How do I track my order?", "What is the warranty policy?",
   "How do I contact customer support?"]

/-- Second loop: pad with general questions not already present, while
fewer than 3. -/
def sgPad : List String → List String → List String
  | [], suggestions => suggestions
  | q :: rest, suggestions =>
    if decide (suggestions.length < 3) && !(suggestions.contains q) then
      sgPad rest (suggestions ++ [q])
    else sgPad rest suggestions

/-- `generateSuggestedQuestions`. -/
def generateSuggestedQuestions (query : String) (qaItems : List QAItem) : List String :=
  let suggestions := sgFirstPass (sgWords query) qaItems []
  if suggestions.length < 3 then sgPad generalQuestions suggestions else suggestions

/-- What `serve` computes for one request: the response fields recorded in
the assistant message / HTTP reply, and the `view_count` update issued on
the FAQ path (`none` when no update is issued). -/
structure ServeOutcome where
  response : String
  confidence : ℚ
  matchedIntent : String
  responseSource : String
  relatedItems : List String
  suggestedQuestions : List String
  viewUpdate : Option (String × ℕ)
deriving DecidableEq, Repr

/-- The `else` branch of the routing in `serve`: generative fallback answer
and confidence, detected intent, source "ai", no related items, no
`view_count` update. -/
def serveFallbackOutcome (regexTest : String → String → Bool) (query : String)
    (qaItems : List QAItem) (intentPatterns : List IntentPattern)
    (gemini : GeminiOutcome) : ServeOutcome :=
  { response := (callGeminiAPI gemini).1
    confidence := (callGeminiAPI gemini).2
    matchedIntent := detectIntent regexTest query intentPatterns
    responseSource := "ai"
    relatedItems := []
    suggestedQuestions := generateSuggestedQuestions query qaItems
    viewUpdate := none }

/-- The request handler `serve` after the knowledge-base fetch: route on
`bestMatch && bestMatch.confidence > 0.3`; on the FAQ path answer verbatim,
compute related items and write `view_count: bestMatch.item.view_count + 1`
for the matched id; otherwise call the generative fallback and classify
intent. -/
def serve (regexTest : String → String → Bool) (query : String)
    (qaItems : List QAItem) (intentPatterns : List IntentPattern)
    (gemini : GeminiOutcome) : ServeOutcome :=
  match findBestMatch query qaItems with
  | some bestMatch =>
    if (0.3 : ℚ) < bestMatch.confidence then
      { response := bestMatch.item.answer
        confidence := bestMatch.confidence
        matchedIntent := ""
        responseSource := "qa_database"
        relatedItems := findRelatedItems bestMatch.item qaItems
        suggestedQuestions := generateSuggestedQuestions query qaItems
        viewUpdate := some (bestMatch.item.id, bestMatch.view_count + 1) }
    else serveFallbackOutcome regexTest query qaItems intentPatterns gemini
  | none => serveFallbackOutcome regexTest query qaItems intentPatterns gemini

/-- A `qa_items` database row (the columns the function touches). -/
structure QARow where
  id : String
  question : String
  answer : String
  keywords : List String
  category_id : String
  view_count : ℕ
deriving DecidableEq, Repr

/-- The projection performed by the `select` in `serve`: `view_count` is not
in the select list, so the fetched object lacks it (`none`). -/
def fetchQAItem (r : QARow) : QAItem :=
  { id := r.id, question := r.question, answer := r.answer,
    keywords := r.keywords, category_id := r.category_id, view_count := none }

/-- The `update({ view_count: v }).eq('id', i)` issued on the FAQ path. -/
def applyViewUpdate (db : List QARow) : Option (String × ℕ) → List QARow
  | none => db
  | some (i, v) => db.map (fun r => if r.id == i then { r with view_count := v } else r)

/-- One full invocation against the database: fetch the active rows, run
`serve`, apply its `view_count` update. -/
def serveDb (regexTest : String → String → Bool) (query : String)
    (db : List QARow) (intentPatterns : List IntentPattern)
    (gemini : GeminiOutcome) : ServeOutcome × List QARow :=
  let outcome := serve regexTest query (db.map fetchQAItem) intentPatterns gemini
  (outcome, applyViewUpdate db outcome.viewUpdate)

/-! ## Bounds on the scoring signals -/

lemma exactMatches_le_length (words1 words2 : List String) :
    exactMatches words1 words2 ≤ words1.length :=
  List.length_filter_le _ _

lemma partialPairs_le_length (words1 words2 : List String) :
    partialPairs words1 words2 ≤ words1.length :=
  List.length_filter_le _ _

lemma simScore_nonneg (words1 words2 : List String) : 0 ≤ simScore words1 words2 := by
  unfold simScore
  split
  · exact le_refl 0
  · positivity

lemma simScore_le_three_halves (words1 words2 : List String) :
    simScore words1 words2 ≤ 3 / 2 := by
  unfold simScore
  split
  · norm_num
  · rename_i h
    push_neg at h
    have h1 : 0 < words1.length := Nat.pos_of_ne_zero h.1
    have h1q : (0 : ℚ) < (words1.length : ℚ) := by exact_mod_cast h1
    have hm : (0 : ℚ) < (words1.length : ℚ) ⊔ (words2.length : ℚ) :=
      lt_of_lt_of_le h1q (le_max_left _ _)
    rw [div_le_iff₀ hm]
    have hsup : (words1.length : ℚ) ≤ (words1.length : ℚ) ⊔ (words2.length : ℚ) :=
      le_max_left _ _
    have he : (exactMatches words1 words2 : ℚ) ≤ (words1.length : ℚ) := by
      exact_mod_cast exactMatches_le_length words1 words2
    have hp : (partialPairs words1 words2 : ℚ) ≤ (words1.length : ℚ) := by
      exact_mod_cast partialPairs_le_length words1 words2
    nlinarith

lemma calculateSimilarity_nonneg (str1 str2 : String) : 0 ≤ calculateSimilarity str1 str2 :=
  simScore_nonneg _ _

lemma calculateSimilarity_le (str1 str2 : String) : calculateSimilarity str1 str2 ≤ 3 / 2 :=
  simScore_le_three_halves _ _

lemma calculateKeywordMatch_nonneg (query : String) (keywords : List String) :
    0 ≤ calculateKeywordMatch query keywords := by
  unfold calculateKeywordMatch
  split
  · exact le_refl 0
  · positivity

lemma calculateKeywordMatch_le_one (query : String) (keywords : List String) :
    calculateKeywordMatch query keywords ≤ 1 := by
  unfold calculateKeywordMatch
  split
  · norm_num
  · rename_i h
    have hk : 0 < keywords.length := Nat.pos_of_ne_zero h
    have hk' : (0 : ℚ) < (keywords.length : ℕ) := by exact_mod_cast hk
    rw [div_le_one hk']
    exact_mod_cast List.length_filter_le _ _

lemma semContribution_nonneg (queryWord : String) (l : List String) :
    0 ≤ semContribution queryWord l := by
  induction l with
  | nil => exact le_refl 0
  | cons v rest ih =>
    unfold semContribution
    split
    · norm_num
    · split
      · norm_num
      · split
        · norm_num
        · exact ih

lemma semLoopSum_nonneg (queryWords questionWords : List String) :
    0 ≤ semLoopSum queryWords questionWords := by
  apply List.sum_nonneg
  intro x hx
  obtain ⟨w, _, rfl⟩ := List.mem_map.mp hx
  exact semContribution_nonneg w questionWords

lemma semBoost_nonneg (query question : String) : 0 ≤ semBoost query question := by
  unfold semBoost
  split <;> split <;> split <;> norm_num

lemma calculateSemanticSimilarity_bounds (query question : String) (s : ℚ)
    (h : calculateSemanticSimilarity query question = some s) : 0 ≤ s ∧ s ≤ 1 := by
  unfold calculateSemanticSimilarity at h
  split at h
  · split at h
    · exact absurd h (by simp)
    · obtain rfl : (1 : ℚ) = s := Option.some.inj h
      norm_num
  · rename_i hlen
    obtain rfl := Option.some.inj h
    constructor
    · apply le_min _ (by norm_num)
      apply div_nonneg
      · exact add_nonneg (semLoopSum_nonneg _ _) (semBoost_nonneg _ _)
      · positivity
    · exact min_le_right _ _

lemma finalScore_bounds (query : String) (item : QAItem) (s : ℚ)
    (h : finalScore query item = some s) : 0 ≤ s ∧ s ≤ 1 := by
  unfold finalScore at h
  split at h
  · exact absurd h (by simp)
  · rename_i sem hsem
    obtain rfl := Option.some.inj h
    obtain ⟨hs0, hs1⟩ := calculateSemanticSimilarity_bounds _ _ _ hsem
    have hq0 := calculateSimilarity_nonneg query.toLower item.question.toLower
    have hq1 := calculateSimilarity_le query.toLower item.question.toLower
    have hk0 := calculateKeywordMatch_nonneg query.toLower item.keywords
    have hk1 := calculateKeywordMatch_le_one query.toLower item.keywords
    constructor
    · have : (0 : ℚ) ≤ calculateSimilarity query.toLower item.question.toLower * 0.6 := by
        nlinarith
      exact le_trans this (le_max_left _ _)
    · apply max_le
      · nlinarith
      · apply max_le
        · nlinarith
        · nlinarith

/-! ## Invariants of the matcher loop -/

lemma findBestMatchAux_snd_mono (query : String) :
    ∀ (items : List QAItem) (st : Option MatchResult × ℚ),
      st.2 ≤ (findBestMatchAux query items st).2 := by
  intro items
  induction items with
  | nil => intro st; exact le_refl _
  | cons a rest ih =>
    rintro ⟨b, h⟩
    cases hfa : finalScore query a with
    | none => simpa only [findBestMatchAux, hfa] using ih (b, h)
    | some fs =>
      by_cases hlt : h < fs
      · simp only [findBestMatchAux, hfa, if_pos hlt]
        exact le_trans (le_of_lt hlt) (ih (some ⟨a, a.view_count.getD 0, fs⟩, fs))
      · simpa only [findBestMatchAux, hfa, if_neg hlt] using ih (b, h)

lemma findBestMatchAux_snd_ub (query : String) :
    ∀ (items : List QAItem) (st : Option MatchResult × ℚ),
      ∀ i ∈ items, ∀ s, finalScore query i = some s →
        s ≤ (findBestMatchAux query items st).2 := by
  intro items
  induction items with
  | nil => intro st i hi; exact absurd hi (List.not_mem_nil i)
  | cons a rest ih =>
    rintro ⟨b, h⟩ i hi s hs
    rcases List.mem_cons.mp hi with rfl | hmem
    · by_cases hlt : h < s
      · simp only [findBestMatchAux, hs, if_pos hlt]
        exact findBestMatchAux_snd_mono query rest _
      · simp only [findBestMatchAux, hs, if_neg hlt]
        exact le_trans (not_lt.mp hlt) (findBestMatchAux_snd_mono query rest _)
    · cases hfa : finalScore query a with
      | none => simpa only [findBestMatchAux, hfa] using ih (b, h) i hmem s hs
      | some fs =>
        by_cases hlt : h < fs
        · simpa only [findBestMatchAux, hfa, if_pos hlt] using
            ih (some ⟨a, a.view_count.getD 0, fs⟩, fs) i hmem s hs
        · simpa only [findBestMatchAux, hfa, if_neg hlt] using ih (b, h) i hmem s hs

lemma findBestMatchAux_some (query : String) (S : MatchResult → Prop) :
    ∀ (items : List QAItem) (st : Option MatchResult × ℚ),
      (∀ i ∈ items, ∀ s, finalScore query i = some s → st.2 < s →
        S ⟨i, i.view_count.getD 0, s⟩) →
      (∀ r, st.1 = some r → S r ∧ r.confidence = st.2) →
      ∀ r, (findBestMatchAux query items st).1 = some r →
        S r ∧ r.confidence = (findBestMatchAux query items st).2 := by
  intro items
  induction items with
  | nil => intro st _ hst r hr; exact hst r hr
  | cons a rest ih =>
    rintro ⟨b, h⟩ hsel hst r hr
    cases hfa : finalScore query a with
    | none =>
      rw [show findBestMatchAux query (a :: rest) (b, h)
            = findBestMatchAux query rest (b, h) by simp only [findBestMatchAux, hfa]] at hr ⊢
      exact ih (b, h) (fun i hi => hsel i (List.mem_cons_of_mem a hi)) hst r hr
    | some fs =>
      by_cases hlt : h < fs
      · rw [show findBestMatchAux query (a :: rest) (b, h)
              = findBestMatchAux query rest (some ⟨a, a.view_count.getD 0, fs⟩, fs) by
            simp only [findBestMatchAux, hfa, if_pos hlt]] at hr ⊢
        refine ih (some ⟨a, a.view_count.getD 0, fs⟩, fs) ?_ ?_ r hr
        · intro i hi s hs hlt'
          exact hsel i (List.mem_cons_of_mem a hi) s hs (lt_trans hlt hlt')
        · rintro r' hr'
          obtain rfl := Option.some.inj hr'
          exact ⟨hsel a (List.mem_cons_self a rest) fs hfa hlt, rfl⟩
      · rw [show findBestMatchAux query (a :: rest) (b, h)
              = findBestMatchAux query rest (b, h) by
            simp only [findBestMatchAux, hfa, if_neg hlt]] at hr ⊢
        exact ih (b, h) (fun i hi => hsel i (List.mem_cons_of_mem a hi)) hst r hr

lemma findBestMatchAux_dominated (query : String) :
    ∀ (items : List QAItem) (st : Option MatchResult × ℚ),
      (∀ i ∈ items, ∀ s, finalScore query i = some s → s ≤ st.2) →
      findBestMatchAux query items st = st := by
  intro items
  induction items with
  | nil => intro st _; rfl
  | cons a rest ih =>
    rintro ⟨b, h⟩ hdom
    cases hfa : finalScore query a with
    | none =>
      simpa only [findBestMatchAux, hfa] using
        ih (b, h) (fun i hi => hdom i (List.mem_cons_of_mem a hi))
    | some fs =>
      have hle : fs ≤ h := hdom a (List.mem_cons_self a rest) fs hfa
      simp only [findBestMatchAux, hfa, if_neg (not_lt.mpr hle)]
      exact ih (b, h) (fun i hi => hdom i (List.mem_cons_of_mem a hi))

/-- Everything `findBestMatch` guarantees about a returned match: membership,
the recorded confidence is the item's own final score, it is strictly
positive, the `view_count` field is the `|| 0` default of the fetched one,
and no candidate's (non-NaN) final score exceeds it. -/
lemma findBestMatch_spec (query : String) (qaItems : List QAItem) (r : MatchResult)
    (h : findBestMatch query qaItems = some r) :
    r.item ∈ qaItems ∧ finalScore query r.item = some r.confidence ∧
    0 < r.confidence ∧ r.view_count = r.item.view_count.getD 0 ∧
    ∀ i ∈ qaItems, ∀ s, finalScore query i = some s → s ≤ r.confidence := by
  have hmain := findBestMatchAux_some query
    (S := fun m => m.item ∈ qaItems ∧ finalScore query m.item = some m.confidence ∧
      0 < m.confidence ∧ m.view_count = m.item.view_count.getD 0)
    qaItems (none, 0)
    (fun i hi s hs hpos => ⟨hi, hs, hpos, rfl⟩)
    (fun r' hr' => absurd hr' (by simp)) r h
  obtain ⟨⟨hmem, hscore, hpos, hvc⟩, hconf⟩ := hmain
  refine ⟨hmem, hscore, hpos, hvc, ?_⟩
  intro i hi s hs
  rw [hconf]
  exact findBestMatchAux_snd_ub query qaItems (none, 0) i hi s hs

/-- The shape of a defined final score: the weighted three-way maximum. -/
lemma finalScore_eq_max (query : String) (item : QAItem) (c : ℚ)
    (h : finalScore query item = some c) :
    ∃ semanticScore,
      calculateSemanticSimilarity query.toLower item.question.toLower = some semanticScore ∧
      c = max (calculateSimilarity query.toLower item.question.toLower * 0.6)
            (max (calculateKeywordMatch query.toLower item.keywords * 0.8)
              (semanticScore * 1.0)) := by
  unfold finalScore at h
  split at h
  · exact absurd h (by simp)
  · rename_i sem hsem
    exact ⟨sem, hsem, (Option.some.inj h).symm⟩

/-! ## Claim theorems for the matcher -/

/-- A concrete entry used to exercise the matcher theorems. -/
def warrantyItem : QAItem :=
  ⟨"faq-1", "warranty policy", "Two years.", ["warranty"], "cat-1", none⟩

/-- C3: the Matcher's final score for the winning candidate equals the
maximum of (lexical similarity × 0.6, keyword match × 0.8, semantic
similarity × 1.0), and the winner's score is the highest final score over
the whole entry set. -/
theorem c3_final_score_is_weighted_max_and_winner_is_highest
    (query : String) (qaItems : List QAItem) (r : MatchResult)
    (h : findBestMatch query qaItems = some r) :
    (∃ semanticScore,
      calculateSemanticSimilarity query.toLower r.item.question.toLower = some semanticScore ∧
      r.confidence = max (calculateSimilarity query.toLower r.item.question.toLower * 0.6)
            (max (calculateKeywordMatch query.toLower r.item.keywords * 0.8)
              (semanticScore * 1.0))) ∧
    r.item ∈ qaItems ∧
    ∀ i ∈ qaItems, ∀ s, finalScore query i = some s → s ≤ r.confidence := by
  obtain ⟨hmem, hscore, _, _, hmax⟩ := findBestMatch_spec query qaItems r h
  exact ⟨finalScore_eq_max query r.item r.confidence hscore, hmem, hmax⟩

/-- Witness for C3 at a concrete query and entry set. -/
theorem c3_final_score_is_weighted_max_and_winner_is_highest_witness :
    (∃ semanticScore,
      calculateSemanticSimilarity "warranty".toLower warrantyItem.question.toLower
        = some semanticScore ∧
      (1 : ℚ) = max (calculateSimilarity "warranty".toLower warrantyItem.question.toLower * 0.6)
            (max (calculateKeywordMatch "warranty".toLower warrantyItem.keywords * 0.8)
              (semanticScore * 1.0))) ∧
    warrantyItem ∈ [warrantyItem] ∧
    (∀ i ∈ [warrantyItem], ∀ s, finalScore "warranty" i = some s → s ≤ (1 : ℚ)) :=
  c3_final_score_is_weighted_max_and_winner_is_highest "warranty" [warrantyItem]
    ⟨warrantyItem, 0, 1⟩ (of_decide_eq_true (by with_unfolding_all rfl))

/-- C4: for every query and entry set the Matcher returns either no result
or exactly one `MatchResult` whose entry is a member of the input set and
whose confidence lies in `[0, 1]` (the `Option` return type is the
"no result or exactly one" contract). -/
theorem c4_matcher_member_and_unit_interval
    (query : String) (qaItems : List QAItem) (r : MatchResult)
    (h : findBestMatch query qaItems = some r) :
    r.item ∈ qaItems ∧ 0 ≤ r.confidence ∧ r.confidence ≤ 1 := by
  obtain ⟨hmem, hscore, _, _, _⟩ := findBestMatch_spec query qaItems r h
  obtain ⟨h0, h1⟩ := finalScore_bounds query r.item r.confidence hscore
  exact ⟨hmem, h0, h1⟩

/-- Witness for C4 at a concrete query and entry set. -/
theorem c4_matcher_member_and_unit_interval_witness :
    warrantyItem ∈ [warrantyItem] ∧ (0 : ℚ) ≤ 1 ∧ (1 : ℚ) ≤ 1 :=
  c4_matcher_member_and_unit_interval "warranty" [warrantyItem]
    ⟨warrantyItem, 0, 1⟩ (of_decide_eq_true (by with_unfolding_all rfl))

/-- C9: a returned match always has strictly positive confidence, and when
every candidate's weighted final score is 0 (or NaN), the Matcher returns
no result. -/
theorem c9_positive_confidence_and_no_zero_score_match
    (query : String) (qaItems : List QAItem) :
    (∀ r, findBestMatch query qaItems = some r → 0 < r.confidence) ∧
    ((∀ i ∈ qaItems, finalScore query i = none ∨ finalScore query i = some 0) →
      findBestMatch query qaItems = none) := by
  constructor
  · intro r h
    exact (findBestMatch_spec query qaItems r h).2.2.1
  · intro hall
    have hdom : ∀ i ∈ qaItems, ∀ s, finalScore query i = some s → s ≤ (0 : ℚ) := by
      intro i hi s hs
      rcases hall i hi with hnone | hzero
      · exact absurd (hnone ▸ hs) (by simp)
      · rw [hs] at hzero
        obtain rfl := Option.some.inj hzero.symm
        exact le_refl 0
    unfold findBestMatch
    rw [findBestMatchAux_dominated query qaItems (none, 0) hdom]

/-- Witness for C9: an empty query (its only token is shorter than 3
characters, so the semantic score is NaN and the final score of every
candidate is NaN) yields no match. -/
theorem c9_positive_confidence_and_no_zero_score_match_witness :
    findBestMatch "" [warrantyItem] = none :=
  (c9_positive_confidence_and_no_zero_score_match "" [warrantyItem]).2
    (of_decide_eq_true (by with_unfolding_all rfl))

/-! ## Claims C5 and C8: the lexical signal is not bounded by 1 -/

/-- C5 counterexample: with query and question both "abc abcd", the lexical
tokens are ["abc", "abcd"]; both are exact matches (2) and each also
partially matches the other token (2 × 0.5), so the signal is 3/2 > 1. -/
theorem c5_counterexample_lexical_exceeds_one :
    calculateSimilarity "abc abcd" "abc abcd" = 3 / 2 ∧
    ¬ (calculateSimilarity "abc abcd" "abc abcd" ≤ 1) :=
  of_decide_eq_true (by with_unfolding_all rfl)

/-- C5 amended: keyword match and (defined) semantic similarity lie in
`[0, 1]`, but lexical similarity is only bounded by `[0, 3/2]` — exact and
partial matches can overlap on the same token pair (and the semantic signal
is NaN rather than a number when the query has no token longer than two
characters). -/
theorem c5_amended_signal_bounds (str1 str2 query : String) (keywords : List String) :
    0 ≤ calculateSimilarity str1 str2 ∧ calculateSimilarity str1 str2 ≤ 3 / 2 ∧
    0 ≤ calculateKeywordMatch query keywords ∧ calculateKeywordMatch query keywords ≤ 1 ∧
    (∀ s, calculateSemanticSimilarity str1 str2 = some s → 0 ≤ s ∧ s ≤ 1) :=
  ⟨calculateSimilarity_nonneg str1 str2, calculateSimilarity_le str1 str2,
   calculateKeywordMatch_nonneg query keywords, calculateKeywordMatch_le_one query keywords,
   fun s hs => calculateSemanticSimilarity_bounds str1 str2 s hs⟩

/-- Witness for C5 (amended) at concrete strings. -/
theorem c5_amended_signal_bounds_witness :
    (0 ≤ calculateSimilarity "warranty info" "warranty policy" ∧
     calculateSimilarity "warranty info" "warranty policy" ≤ 3 / 2 ∧
     0 ≤ calculateKeywordMatch "how fast" ["speed"] ∧
     calculateKeywordMatch "how fast" ["speed"] ≤ 1 ∧
     (∀ s, calculateSemanticSimilarity "warranty info" "warranty policy" = some s →
        0 ≤ s ∧ s ≤ 1)) ∧
    (0 : ℚ) ≤ 1 / 2 ∧ (1 / 2 : ℚ) ≤ 1 :=
  ⟨c5_amended_signal_bounds "warranty info" "warranty policy" "how fast" ["speed"],
   (c5_amended_signal_bounds "warranty info" "warranty policy" "how fast" ["speed"]).2.2.2.2
     (1 / 2) (of_decide_eq_true (by with_unfolding_all rfl))⟩

/-- Filtering with a pointwise weaker predicate keeps at least as many
elements. -/
lemma length_filter_mono {α : Type} (l : List α) (p q : α → Bool)
    (h : ∀ a ∈ l, p a = true → q a = true) :
    (l.filter p).length ≤ (l.filter q).length := by
  induction l with
  | nil => exact le_refl 0
  | cons a rest ih =>
    have ih' := ih (fun x hx => h x (List.mem_cons_of_mem a hx))
    by_cases hp : p a = true
    · rw [List.filter_cons_of_pos hp, List.filter_cons_of_pos (h a (List.mem_cons_self a rest) hp)]
      simpa using ih'
    · rw [List.filter_cons_of_neg (by simpa using hp)]
      by_cases hq : q a = true
      · rw [List.filter_cons_of_pos hq]
        exact le_trans ih' (by simp)
      · rw [List.filter_cons_of_neg (by simpa using hq)]
        exact ih'

lemma exactMatches_append_token (words1 words2 : List String) (w : String) :
    exactMatches words1 words2 + 1 ≤ exactMatches (words1 ++ [w]) (words2 ++ [w]) := by
  unfold exactMatches
  rw [List.filter_append, List.length_append]
  have h1 : (words1.filter (fun x => words2.contains x)).length
      ≤ (words1.filter (fun x => (words2 ++ [w]).contains x)).length := by
    apply length_filter_mono
    intro a _ ha
    have : a ∈ words2 := by simpa using ha
    simp [this]
  have h2 : (([w].filter (fun x => (words2 ++ [w]).contains x)).length) = 1 := by
    simp
  omega

lemma partialPairs_append_token (words1 words2 : List String) (w : String) :
    partialPairs words1 words2 ≤ partialPairs (words1 ++ [w]) (words2 ++ [w]) := by
  unfold partialPairs
  rw [List.filter_append, List.length_append]
  have h1 : (words1.filter (fun x => hasPartialMatch x words2)).length
      ≤ (words1.filter (fun x => hasPartialMatch x (words2 ++ [w]))).length := by
    apply length_filter_mono
    intro a _ ha
    unfold hasPartialMatch at ha ⊢
    rw [List.any_append]
    simp [ha]
  omega

/-- C8 counterexample: "qqq" is an exact-match token added to both the query
"abc abcd" and the identical question, yet the lexical signal drops from
3/2 to 4/3. -/
theorem c8_counterexample_monotonicity_fails :
    calculateSimilarity "abc abcd qqq" "abc abcd qqq"
      < calculateSimilarity "abc abcd" "abc abcd" ∧
    calculateSimilarity "abc abcd" "abc abcd" = 3 / 2 ∧
    calculateSimilarity "abc abcd qqq" "abc abcd qqq" = 4 / 3 :=
  of_decide_eq_true (by with_unfolding_all rfl)

/-- C8 amended: as long as the current lexical score does not exceed 1
(the regime the score was designed for — it can reach 3/2), appending a
shared exact-match token to both token lists never decreases the lexical
score. -/
theorem c8_amended_lexical_monotone_in_unit_regime
    (words1 words2 : List String) (w : String)
    (h : simScore words1 words2 ≤ 1) :
    simScore words1 words2 ≤ simScore (words1 ++ [w]) (words2 ++ [w]) := by
  by_cases hemp : words1.length = 0 ∨ words2.length = 0
  · have h0 : simScore words1 words2 = 0 := by unfold simScore; rw [if_pos hemp]
    rw [h0]
    exact simScore_nonneg _ _
  · push_neg at hemp
    obtain ⟨h1, h2⟩ := hemp
    have h1q : (0 : ℚ) < (words1.length : ℚ) := by
      exact_mod_cast Nat.pos_of_ne_zero h1
    have hd : (0 : ℚ) < (words1.length : ℚ) ⊔ (words2.length : ℚ) :=
      lt_of_lt_of_le h1q (le_max_left _ _)
    have hsold : simScore words1 words2
        = ((exactMatches words1 words2 : ℚ) + (partialPairs words1 words2 : ℚ) / 2)
          / ((words1.length : ℚ) ⊔ (words2.length : ℚ)) := by
      unfold simScore
      rw [if_neg (by push_neg; exact ⟨h1, h2⟩)]
    have hsnew : simScore (words1 ++ [w]) (words2 ++ [w])
        = ((exactMatches (words1 ++ [w]) (words2 ++ [w]) : ℚ)
            + (partialPairs (words1 ++ [w]) (words2 ++ [w]) : ℚ) / 2)
          / (((words1.length : ℚ) ⊔ (words2.length : ℚ)) + 1) := by
      unfold simScore
      rw [if_neg (by simp)]
      congr 1
      rw [List.length_append, List.length_append]
      push_cast
      simpa using max_add_add_right (words1.length : ℚ) (words2.length : ℚ) 1
    set e := (exactMatches words1 words2 : ℚ) with he
    set p := (partialPairs words1 words2 : ℚ) with hp
    set d := (words1.length : ℚ) ⊔ (words2.length : ℚ) with hdd
    have hnum : e + 1 + p / 2
        ≤ (exactMatches (words1 ++ [w]) (words2 ++ [w]) : ℚ)
          + (partialPairs (words1 ++ [w]) (words2 ++ [w]) : ℚ) / 2 := by
      have hce : e + 1 ≤ (exactMatches (words1 ++ [w]) (words2 ++ [w]) : ℚ) := by
        rw [he]
        exact_mod_cast exactMatches_append_token words1 words2 w
      have hcp : p ≤ (partialPairs (words1 ++ [w]) (words2 ++ [w]) : ℚ) := by
        rw [hp]
        exact_mod_cast partialPairs_append_token words1 words2 w
      linarith
    have hn_le_d : e + p / 2 ≤ d := by
      have h' : (e + p / 2) / d ≤ 1 := by rw [hsold] at h; exact h
      calc e + p / 2 = (e + p / 2) / d * d := (div_mul_cancel₀ _ (ne_of_gt hd)).symm
        _ ≤ 1 * d := mul_le_mul_of_nonneg_right h' (le_of_lt hd)
        _ = d := one_mul d
    have hn0 : 0 ≤ e + p / 2 := by positivity
    rw [hsold, hsnew]
    have hd1 : (0 : ℚ) < d + 1 := by linarith
    calc (e + p / 2) / d ≤ (e + p / 2 + 1) / (d + 1) := by
          rw [div_le_div_iff₀ hd hd1]
          nlinarith
      _ ≤ ((exactMatches (words1 ++ [w]) (words2 ++ [w]) : ℚ)
            + (partialPairs (words1 ++ [w]) (words2 ++ [w]) : ℚ) / 2) / (d + 1) := by
          rw [div_le_div_iff₀ hd1 hd1]
          have hB : e + p / 2 + 1
              ≤ (exactMatches (words1 ++ [w]) (words2 ++ [w]) : ℚ)
                + (partialPairs (words1 ++ [w]) (words2 ++ [w]) : ℚ) / 2 := by
            linarith
          nlinarith
      _ = _ := rfl

/-- Witness for C8 (amended) at concrete token lists. -/
theorem c8_amended_lexical_monotone_in_unit_regime_witness :
    simScore ["warranty"] ["warranty", "policy"]
      ≤ simScore (["warranty"] ++ ["new"]) (["warranty", "policy"] ++ ["new"]) :=
  c8_amended_lexical_monotone_in_unit_regime ["warranty"] ["warranty", "policy"] "new"
    (of_decide_eq_true (by with_unfolding_all rfl))

/-! ## Claims C7 and C10: the suggestion generator -/

lemma sgFirstPass_shape (queryWords : List String) :
    ∀ (items : List QAItem) (s : List String),
      ∃ t, sgFirstPass queryWords items s = s ++ t ∧
        t.Sublist (items.map (fun i => i.question)) := by
  intro items
  induction items with
  | nil => intro s; exact ⟨[], by simp [sgFirstPass], List.Sublist.refl _⟩
  | cons a rest ih =>
    intro s
    by_cases hc : (decide (0 < sgCommonCount queryWords a)
        && decide (s.length < 3)) = true
    · obtain ⟨t, ht, hsub⟩ := ih (s ++ [a.question])
      refine ⟨a.question :: t, ?_, List.Sublist.cons₂ _ hsub⟩
      simp only [sgFirstPass, hc, if_true]
      rw [ht, List.append_assoc]
      rfl
    · obtain ⟨t, ht, hsub⟩ := ih s
      refine ⟨t, ?_, List.Sublist.cons _ hsub⟩
      simp only [sgFirstPass, hc, if_false]
      exact ht

lemma sgFirstPass_le_three (queryWords : List String) :
    ∀ (items : List QAItem) (s : List String),
      s.length ≤ 3 → (sgFirstPass queryWords items s).length ≤ 3 := by
  intro items
  induction items with
  | nil => intro s hs; simpa [sgFirstPass] using hs
  | cons a rest ih =>
    intro s hs
    by_cases hc : (decide (0 < sgCommonCount queryWords a)
        && decide (s.length < 3)) = true
    · simp only [sgFirstPass, hc, if_true]
      apply ih
      have hlen : s.length < 3 := by
        have := (Bool.and_eq_true _ _).mp hc
        exact of_decide_eq_true this.2
      simp [hlen]
      omega
    · simp only [sgFirstPass, hc, if_false]
      exact ih s hs

lemma sgPad_le_three :
    ∀ (gs : List String) (s : List String),
      s.length ≤ 3 → (sgPad gs s).length ≤ 3 := by
  intro gs
  induction gs with
  | nil => intro s hs; simpa [sgPad] using hs
  | cons q rest ih =>
    intro s hs
    by_cases hc : (decide (s.length < 3) && !(s.contains q)) = true
    · simp only [sgPad, hc, if_true]
      apply ih
      have hlen : s.length < 3 := of_decide_eq_true ((Bool.and_eq_true _ _).mp hc).1
      simp
      omega
    · simp only [sgPad, hc, if_false]
      exact ih s hs

lemma sgPad_length_mono :
    ∀ (gs : List String) (s : List String), s.length ≤ (sgPad gs s).length := by
  intro gs
  induction gs with
  | nil => intro s; simp [sgPad]
  | cons q rest ih =>
    intro s
    by_cases hc : (decide (s.length < 3) && !(s.contains q)) = true
    · simp only [sgPad, hc, if_true]
      calc s.length ≤ (s ++ [q]).length := by simp
        _ ≤ _ := ih (s ++ [q])
    · simp only [sgPad, hc, if_false]
      exact ih s

lemma sgPad_mem_mono :
    ∀ (gs : List String) (s : List String) (x : String), x ∈ s → x ∈ sgPad gs s := by
  intro gs
  induction gs with
  | nil => intro s x hx; simpa [sgPad] using hx
  | cons q rest ih =>
    intro s x hx
    by_cases hc : (decide (s.length < 3) && !(s.contains q)) = true
    · simp only [sgPad, hc, if_true]
      exact ih (s ++ [q]) x (List.mem_append_left _ hx)
    · simp only [sgPad, hc, if_false]
      exact ih s x hx

lemma sgPad_mem_of_short :
    ∀ (gs : List String) (s : List String),
      (sgPad gs s).length < 3 → ∀ g ∈ gs, g ∈ sgPad gs s := by
  intro gs
  induction gs with
  | nil => intro s _ g hg; exact absurd hg (List.not_mem_nil g)
  | cons q rest ih =>
    intro s hlen g hg
    by_cases hc : (decide (s.length < 3) && !(s.contains q)) = true
    · rw [show sgPad (q :: rest) s = sgPad rest (s ++ [q]) by
        simp only [sgPad]; rw [if_pos hc]] at hlen ⊢
      rcases List.mem_cons.mp hg with hgq | hgrest
      · subst hgq
        exact sgPad_mem_mono rest (s ++ [g]) g (by simp)
      · exact ih (s ++ [q]) hlen g hgrest
    · rw [show sgPad (q :: rest) s = sgPad rest s by
        simp only [sgPad]; rw [if_neg hc]] at hlen ⊢
      rcases List.mem_cons.mp hg with hgq | hgrest
      · subst hgq
        have hq : g ∈ s := by
          by_cases hl3 : s.length < 3
          · have hcontains : s.contains g = true := by
              rcases Bool.and_eq_false_iff.mp (Bool.eq_false_iff.mpr hc) with hnl | hnc
              · exact absurd hnl (by simpa using hl3)
              · simpa using hnc
            simpa using hcontains
          · exact absurd (lt_of_le_of_lt (sgPad_length_mono rest s) hlen)
              (by omega)
        exact sgPad_mem_mono rest s g hq
      · exact ih s hlen g hgrest

lemma sgPad_nodup :
    ∀ (gs : List String) (s : List String), s.Nodup → (sgPad gs s).Nodup := by
  intro gs
  induction gs with
  | nil => intro s hs; simpa [sgPad] using hs
  | cons q rest ih =>
    intro s hs
    by_cases hc : (decide (s.length < 3) && !(s.contains q)) = true
    · simp only [sgPad, hc, if_true]
      apply ih
      have hq : q ∉ s := by
        have := ((Bool.and_eq_true _ _).mp hc).2
        simpa using this
      simp [List.nodup_append, hs, hq]
    · simp only [sgPad, hc, if_false]
      exact ih s hs

/-- C10: the suggestion generator always returns exactly 3 suggestions:
the static padding list holds 3 pairwise distinct questions and padding
skips only questions already present. -/
theorem c10_exactly_three_suggestions (query : String) (qaItems : List QAItem) :
    (generateSuggestedQuestions query qaItems).length = 3 := by
  unfold generateSuggestedQuestions
  have hfp := sgFirstPass_le_three (sgWords query) qaItems [] (by simp)
  by_cases hlt : (sgFirstPass (sgWords query) qaItems []).length < 3
  · rw [if_pos hlt]
    have hle := sgPad_le_three generalQuestions _ hfp
    by_cases hshort : (sgPad generalQuestions (sgFirstPass (sgWords query) qaItems [])).length < 3
    · exfalso
      have hmem := sgPad_mem_of_short generalQuestions _ hshort
      have hsub : ({"How do I track my order?", "What is the warranty policy?",
          "How do I contact customer support?"} : Finset String)
          ⊆ (sgPad generalQuestions (sgFirstPass (sgWords query) qaItems [])).toFinset := by
        intro x hx
        simp only [Finset.mem_insert, Finset.mem_singleton] at hx
        rcases hx with rfl | rfl | rfl <;>
          exact List.mem_toFinset.mpr (hmem _ (by simp [generalQuestions]))
      have hcard : ({"How do I track my order?", "What is the warranty policy?",
          "How do I contact customer support?"} : Finset String).card = 3 := by decide
      have h1 := Finset.card_le_card hsub
      have h2 := List.toFinset_card_le
        (sgPad generalQuestions (sgFirstPass (sgWords query) qaItems []))
      omega
    · omega
  · rw [if_neg hlt]
    omega

/-- C7 counterexample: two distinct entries sharing the question text
"track order status" each share a token with the query, so the question is
proposed twice — the output has a duplicate. -/
theorem c7_counterexample_duplicate_suggestions :
    generateSuggestedQuestions "track order status"
      [⟨"1", "track order status", "a", [], "c", none⟩,
       ⟨"2", "track order status", "a", [], "c", none⟩]
      = ["track order status", "track order status", "How do I track my order?"] ∧
    ¬ (generateSuggestedQuestions "track order status"
      [⟨"1", "track order status", "a", [], "c", none⟩,
       ⟨"2", "track order status", "a", [], "c", none⟩]).Nodup :=
  of_decide_eq_true (by with_unfolding_all rfl)

/-- C7 amended: the suggestion generator returns at most 3 questions, and
the output has no duplicates provided the entries' question strings are
pairwise distinct (the FAQ loop never re-checks membership, so duplicate
question texts in the entry set are echoed; the padding loop does check). -/
theorem c7_at_most_three_and_nodup_for_distinct_questions
    (query : String) (qaItems : List QAItem) :
    (generateSuggestedQuestions query qaItems).length ≤ 3 ∧
    ((qaItems.map (fun i => i.question)).Nodup →
      (generateSuggestedQuestions query qaItems).Nodup) := by
  unfold generateSuggestedQuestions
  have hfp := sgFirstPass_le_three (sgWords query) qaItems [] (by simp)
  obtain ⟨t, ht, hsub⟩ := sgFirstPass_shape (sgWords query) qaItems []
  constructor
  · by_cases hlt : (sgFirstPass (sgWords query) qaItems []).length < 3
    · rw [if_pos hlt]
      exact sgPad_le_three generalQuestions _ hfp
    · rw [if_neg hlt]
      exact hfp
  · intro hq
    have hnodup : (sgFirstPass (sgWords query) qaItems []).Nodup := by
      rw [ht]
      simpa using hsub.nodup hq
    by_cases hlt : (sgFirstPass (sgWords query) qaItems []).length < 3
    · rw [if_pos hlt]
      exact sgPad_nodup generalQuestions _ hnodup
    · rw [if_neg hlt]
      exact hnodup

/-- Witness for C7 (amended) at a concrete query and entry set. -/
theorem c7_at_most_three_and_nodup_for_distinct_questions_witness :
    (generateSuggestedQuestions "warranty" [warrantyItem]).length ≤ 3 ∧
    (generateSuggestedQuestions "warranty" [warrantyItem]).Nodup :=
  ⟨(c7_at_most_three_and_nodup_for_distinct_questions "warranty" [warrantyItem]).1,
   (c7_at_most_three_and_nodup_for_distinct_questions "warranty" [warrantyItem]).2
     (of_decide_eq_true (by with_unfolding_all rfl))⟩

/-! ## Claim C1: the view counter is overwritten, not incremented

The `select` issued by `serve` does not request `view_count`, so
`item.view_count` is `undefined`, `item.view_count || 0` is `0`, and the
"increment" `update({ view_count: bestMatch.item.view_count + 1 })` always
writes the constant `1` — contradicting both the spec and the code's own
`// Increment view count` comment. -/

/-- A database row whose counter already stands at 5. -/
def c1row : QARow :=
  ⟨"faq-1", "warranty policy", "Our warranty lasts two years.", ["warranty"], "cat-1", 5⟩

/-- C1: two sequential invocations that both select `c1row` (query
"warranty" matches it with confidence 1 > 0.3, so the FAQ path runs twice)
leave its view counter at 1 — not at `5 + 2` as the claim requires. -/
theorem c1_view_counter_overwritten_with_one :
    (serveDb (fun _ _ => false) "warranty"
      ((serveDb (fun _ _ => false) "warranty" [c1row] [] .fetchError).2) [] .fetchError).2
      = [{ c1row with view_count := 1 }] ∧
    ({ c1row with view_count := 1 } : QARow).view_count ≠ c1row.view_count + 2 :=
  of_decide_eq_true (by with_unfolding_all rfl)

/-! ## Claim C2: fallback failure handling -/

/-- C2 counterexample: a non-2xx response (HTTP 500) whose JSON body parses
but carries no candidates is *not* mapped to the apologetic
technical-difficulties message with confidence 0.1 — the code never checks
the HTTP status, so it extracts no text, falls back to the
"unable to process" default and reports confidence 0.8. -/
theorem c2_counterexample_non_2xx_not_apology :
    (serve (fun _ _ => false) "hello" [] [] (.fetched 500 (.parsed none))).response
      = unableToProcessMsg ∧
    (serve (fun _ _ => false) "hello" [] [] (.fetched 500 (.parsed none))).confidence = 0.8 ∧
    unableToProcessMsg ≠ technicalDifficultiesMsg ∧ (0.8 : ℚ) ≠ 0.1 :=
  of_decide_eq_true (by with_unfolding_all rfl)

/-- Unfolding `serve` when the matcher finds nothing. -/
lemma serve_eq_of_none (regexTest : String → String → Bool) (query : String)
    (qaItems : List QAItem) (intentPatterns : List IntentPattern) (gemini : GeminiOutcome)
    (hm : findBestMatch query qaItems = none) :
    serve regexTest query qaItems intentPatterns gemini
      = serveFallbackOutcome regexTest query qaItems intentPatterns gemini := by
  unfold serve
  rw [hm]

/-- Unfolding `serve` when the matcher returns `r`. -/
lemma serve_eq_of_match (regexTest : String → String → Bool) (query : String)
    (qaItems : List QAItem) (intentPatterns : List IntentPattern) (gemini : GeminiOutcome)
    (r : MatchResult) (hm : findBestMatch query qaItems = some r) :
    serve regexTest query qaItems intentPatterns gemini
      = if (0.3 : ℚ) < r.confidence then
          { response := r.item.answer
            confidence := r.confidence
            matchedIntent := ""
            responseSource := "qa_database"
            relatedItems := findRelatedItems r.item qaItems
            suggestedQuestions := generateSuggestedQuestions query qaItems
            viewUpdate := some (r.item.id, r.view_count + 1) }
        else serveFallbackOutcome regexTest query qaItems intentPatterns gemini := by
  unfold serve
  rw [hm]

/-- When no match clears the threshold, `serve` is the fallback outcome. -/
lemma serve_fallback_of_no_confident_match (regexTest : String → String → Bool)
    (query : String) (qaItems : List QAItem) (intentPatterns : List IntentPattern)
    (gemini : GeminiOutcome)
    (h : ∀ r, findBestMatch query qaItems = some r → r.confidence ≤ 0.3) :
    serve regexTest query qaItems intentPatterns gemini
      = serveFallbackOutcome regexTest query qaItems intentPatterns gemini := by
  cases hm : findBestMatch query qaItems with
  | none => exact serve_eq_of_none regexTest query qaItems intentPatterns gemini hm
  | some r =>
    rw [serve_eq_of_match regexTest query qaItems intentPatterns gemini r hm,
        if_neg (not_lt.mpr (h r hm))]

/-- C2 amended: when the fallback path runs, a *thrown* generative call —
network error on `fetch`, or a payload on which `response.json()` throws —
yields the fixed apologetic message with confidence 0.1 and source "ai",
and no exception surfaces (`serve` is total).  A non-2xx response whose
body parses is treated exactly like a success: extracted text or the
"unable to process" default, confidence 0.8, source "ai". -/
theorem c2_amended_thrown_failures_give_apology_non_2xx_does_not
    (regexTest : String → String → Bool) (query : String) (qaItems : List QAItem)
    (intentPatterns : List IntentPattern) (status : ℕ)
    (h : ∀ r, findBestMatch query qaItems = some r → r.confidence ≤ 0.3) :
    ((serve regexTest query qaItems intentPatterns .fetchError).response
        = technicalDifficultiesMsg ∧
     (serve regexTest query qaItems intentPatterns .fetchError).confidence = 0.1 ∧
     (serve regexTest query qaItems intentPatterns .fetchError).responseSource = "ai") ∧
    ((serve regexTest query qaItems intentPatterns (.fetched status .parseError)).response
        = technicalDifficultiesMsg ∧
     (serve regexTest query qaItems intentPatterns (.fetched status .parseError)).confidence
        = 0.1 ∧
     (serve regexTest query qaItems intentPatterns (.fetched status .parseError)).responseSource
        = "ai") ∧
    ((serve regexTest query qaItems intentPatterns (.fetched status (.parsed none))).response
        = unableToProcessMsg ∧
     (serve regexTest query qaItems intentPatterns (.fetched status (.parsed none))).confidence
        = 0.8 ∧
     (serve regexTest query qaItems intentPatterns (.fetched status (.parsed none))).responseSource
        = "ai") := by
  rw [serve_fallback_of_no_confident_match regexTest query qaItems intentPatterns .fetchError h,
      serve_fallback_of_no_confident_match regexTest query qaItems intentPatterns
        (.fetched status .parseError) h,
      serve_fallback_of_no_confident_match regexTest query qaItems intentPatterns
        (.fetched status (.parsed none)) h]
  exact ⟨⟨rfl, rfl, rfl⟩, ⟨rfl, rfl, rfl⟩, ⟨rfl, rfl, rfl⟩⟩

/-- Witness for C2 (amended): empty entry set, so no match exists. -/
theorem c2_amended_thrown_failures_give_apology_non_2xx_does_not_witness :
    ((serve (fun _ _ => false) "hi" [] [] .fetchError).response
        = technicalDifficultiesMsg ∧
     (serve (fun _ _ => false) "hi" [] [] .fetchError).confidence = 0.1 ∧
     (serve (fun _ _ => false) "hi" [] [] .fetchError).responseSource = "ai") ∧
    ((serve (fun _ _ => false) "hi" [] [] (.fetched 500 .parseError)).response
        = technicalDifficultiesMsg ∧
     (serve (fun _ _ => false) "hi" [] [] (.fetched 500 .parseError)).confidence = 0.1 ∧
     (serve (fun _ _ => false) "hi" [] [] (.fetched 500 .parseError)).responseSource = "ai") ∧
    ((serve (fun _ _ => false) "hi" [] [] (.fetched 500 (.parsed none))).response
        = unableToProcessMsg ∧
     (serve (fun _ _ => false) "hi" [] [] (.fetched 500 (.parsed none))).confidence = 0.8 ∧
     (serve (fun _ _ => false) "hi" [] [] (.fetched 500 (.parsed none))).responseSource
        = "ai") :=
  c2_amended_thrown_failures_give_apology_non_2xx_does_not (fun _ _ => false) "hi" [] [] 500
    (fun r hr => absurd hr (by intro h; exact Option.noConfusion h))

/-! ## Claim C6: threshold routing and intent detection -/

lemma detectIntent_first_match (regexTest : String → String → Bool) (query : String) :
    ∀ (pre : List IntentPattern) (p : IntentPattern) (post : List IntentPattern),
      (∀ p' ∈ pre, regexTest p'.pattern query = false) →
      regexTest p.pattern query = true →
      detectIntent regexTest query (pre ++ p :: post) = p.intent := by
  intro pre
  induction pre with
  | nil =>
    intro p post _ hp
    simp only [List.nil_append, detectIntent, hp, if_true]
  | cons a rest ih =>
    intro p post hpre hp
    have ha : regexTest a.pattern query = false := hpre a (List.mem_cons_self a rest)
    simp only [List.cons_append, detectIntent, ha]
    exact ih p post (fun p' hp' => hpre p' (List.mem_cons_of_mem a hp')) hp

lemma detectIntent_no_match (regexTest : String → String → Bool) (query : String) :
    ∀ (patterns : List IntentPattern),
      (∀ p ∈ patterns, regexTest p.pattern query = false) →
      detectIntent regexTest query patterns = "general_inquiry" := by
  intro patterns
  induction patterns with
  | nil => intro _; rfl
  | cons a rest ih =>
    intro hall
    have ha : regexTest a.pattern query = false := hall a (List.mem_cons_self a rest)
    simp only [detectIntent, ha]
    exact ih (fun p hp => hall p (List.mem_cons_of_mem a hp))

/-- C6: the FAQ path — source "qa_database", the entry's answer verbatim,
the match confidence, empty intent — is taken exactly when a match exists
with confidence strictly above the 0.3 threshold; otherwise the source is
"ai" and the matched intent is the first `IntentPattern` whose pattern
accepts the query (case-insensitive via the regex oracle), or
"general_inquiry" when none does. -/
theorem c6_threshold_routing_and_first_matching_intent
    (regexTest : String → String → Bool) (query : String) (qaItems : List QAItem)
    (intentPatterns : List IntentPattern) (gemini : GeminiOutcome) :
    ((serve regexTest query qaItems intentPatterns gemini).responseSource = "qa_database"
      ↔ ∃ r, findBestMatch query qaItems = some r ∧ (0.3 : ℚ) < r.confidence) ∧
    (∀ r, findBestMatch query qaItems = some r → (0.3 : ℚ) < r.confidence →
      (serve regexTest query qaItems intentPatterns gemini).response = r.item.answer ∧
      (serve regexTest query qaItems intentPatterns gemini).confidence = r.confidence ∧
      (serve regexTest query qaItems intentPatterns gemini).matchedIntent = "") ∧
    ((¬ ∃ r, findBestMatch query qaItems = some r ∧ (0.3 : ℚ) < r.confidence) →
      (serve regexTest query qaItems intentPatterns gemini).responseSource = "ai" ∧
      (serve regexTest query qaItems intentPatterns gemini).matchedIntent
        = detectIntent regexTest query intentPatterns) ∧
    (∀ (pre : List IntentPattern) (p : IntentPattern) (post : List IntentPattern),
      intentPatterns = pre ++ p :: post →
      (∀ p' ∈ pre, regexTest p'.pattern query = false) →
      regexTest p.pattern query = true →
      detectIntent regexTest query intentPatterns = p.intent) ∧
    ((∀ p ∈ intentPatterns, regexTest p.pattern query = false) →
      detectIntent regexTest query intentPatterns = "general_inquiry") := by
  refine ⟨?_, ?_, ?_, ?_, ?_⟩
  · constructor
    · intro hsrc
      cases hm : findBestMatch query qaItems with
      | none =>
        rw [serve_eq_of_none regexTest query qaItems intentPatterns gemini hm] at hsrc
        exact absurd hsrc (by simp [serveFallbackOutcome])
      | some r =>
        rw [serve_eq_of_match regexTest query qaItems intentPatterns gemini r hm] at hsrc
        by_cases hc : (0.3 : ℚ) < r.confidence
        · exact ⟨r, rfl, hc⟩
        · rw [if_neg hc] at hsrc
          exact absurd hsrc (by simp [serveFallbackOutcome])
    · rintro ⟨r, hm, hc⟩
      rw [serve_eq_of_match regexTest query qaItems intentPatterns gemini r hm, if_pos hc]
  · intro r hm hc
    rw [serve_eq_of_match regexTest query qaItems intentPatterns gemini r hm, if_pos hc]
    exact ⟨rfl, rfl, rfl⟩
  · intro hno
    have h : ∀ r, findBestMatch query qaItems = some r → r.confidence ≤ 0.3 := by
      intro r hm
      by_contra hgt
      exact hno ⟨r, hm, lt_of_not_le hgt⟩
    rw [serve_fallback_of_no_confident_match regexTest query qaItems intentPatterns gemini h]
    exact ⟨rfl, rfl⟩
  · intro pre p post heq hpre hp
    rw [heq]
    exact detectIntent_first_match regexTest query pre p post hpre hp
  · exact detectIntent_no_match regexTest query intentPatterns

/-- Witness for C6: the FAQ branch at a concrete confident match. -/
theorem c6_threshold_routing_and_first_matching_intent_witness :
    (serve (fun _ _ => false) "warranty" [warrantyItem] [] .fetchError).response
      = warrantyItem.answer ∧
    (serve (fun _ _ => false) "warranty" [warrantyItem] [] .fetchError).confidence = 1 ∧
    (serve (fun _ _ => false) "warranty" [warrantyItem] [] .fetchError).matchedIntent = "" :=
  (c6_threshold_routing_and_first_matching_intent (fun _ _ => false) "warranty"
      [warrantyItem] [] .fetchError).2.1
    ⟨warrantyItem, 0, 1⟩ (of_decide_eq_true (by with_unfolding_all rfl))
    (of_decide_eq_true (by with_unfolding_all rfl))

end ScootAssist
